import Mathlib

/-!
Verification of the micromachines vehicle-dynamics core.

The dynamics model `CarPhysics` (src/src/game/car/CarPhysics.ts) is embedded
as a pure state-transition function over `ℚ`; JavaScript numbers are modelled
as exact rationals.  The car controller's per-tick subroutines
(src/src/game/GameEngine.ts, class CarController) are embedded one by one:
collision commit, suspension, gravity and drift-trail gating.  External
geometry queries (three.js raycasts) are passed in as explicit inputs.
-/

namespace Micromachines

/-- Input snapshot consumed by the dynamics model each tick
(CarPhysics.ts, interface CarInput). -/
structure CarInput where
  forward : Bool
  backward : Bool
  left : Bool
  right : Bool
  brake : Bool
  drift : Bool
deriving Repr, DecidableEq

/-- Mutable state of the dynamics model (CarPhysics.ts, class CarPhysics,
fields declared at the top of the class). -/
structure CarPhysics where
  velocity : ℚ
  acceleration : ℚ
  steeringAngle : ℚ
  lateralVelocity : ℚ
  driftFactor : ℚ
  slideDirection : ℚ
deriving Repr, DecidableEq

namespace CarPhysics

/-- CarPhysics.ts constant MAX_SPEED. -/
def MAX_SPEED : ℚ := 25
/-- CarPhysics.ts constant MAX_REVERSE_SPEED. -/
def MAX_REVERSE_SPEED : ℚ := -10
/-- CarPhysics.ts constant ACCELERATION_RATE. -/
def ACCELERATION_RATE : ℚ := 15
/-- CarPhysics.ts constant BRAKING_RATE. -/
def BRAKING_RATE : ℚ := 20
/-- CarPhysics.ts constant DECELERATION_RATE. -/
def DECELERATION_RATE : ℚ := 8
/-- CarPhysics.ts constant MAX_STEERING_ANGLE. -/
def MAX_STEERING_ANGLE : ℚ := 0.10
/-- CarPhysics.ts constant STEERING_SPEED. -/
def STEERING_SPEED : ℚ := 3.2
/-- CarPhysics.ts constant STEERING_RESET_SPEED. -/
def STEERING_RESET_SPEED : ℚ := 8
/-- CarPhysics.ts constant DRIFT_TRACTION_LOSS. -/
def DRIFT_TRACTION_LOSS : ℚ := 0.7
/-- CarPhysics.ts constant DRIFT_STEERING_FACTOR. -/
def DRIFT_STEERING_FACTOR : ℚ := 1.4
/-- CarPhysics.ts constant MAX_DRIFT_FACTOR. -/
def MAX_DRIFT_FACTOR : ℚ := 1.0
/-- CarPhysics.ts constant DRIFT_BUILDUP_RATE. -/
def DRIFT_BUILDUP_RATE : ℚ := 5.0
/-- CarPhysics.ts constant DRIFT_RECOVERY_RATE. -/
def DRIFT_RECOVERY_RATE : ℚ := 3.0
/-- CarPhysics.ts constant MAX_LATERAL_VELOCITY. -/
def MAX_LATERAL_VELOCITY : ℚ := 6.0
/-- CarPhysics.ts constant LATERAL_FRICTION. -/
def LATERAL_FRICTION : ℚ := 1.5
/-- CarPhysics.ts constant LATERAL_TRANSFER_FACTOR. -/
def LATERAL_TRANSFER_FACTOR : ℚ := 0.5
/-- CarPhysics.ts constant OFF_TRACK_MAX_SPEED. -/
def OFF_TRACK_MAX_SPEED : ℚ := 15
/-- CarPhysics.ts constant OFF_TRACK_TRACTION. -/
def OFF_TRACK_TRACTION : ℚ := 0.7
/-- CarPhysics.ts constant OFF_TRACK_STEERING_FACTOR. -/
def OFF_TRACK_STEERING_FACTOR : ℚ := 0.8

/-- Steering direction resolved from the left/right keys
(CarPhysics.update, the steeringDirection local). -/
def steeringDirection (input : CarInput) : ℚ :=
  if input.left then -1 else if input.right then 1 else 0

/-- First block of CarPhysics.update: acceleration from throttle keys. -/
def accelBlock (input : CarInput) (s : CarPhysics) : CarPhysics :=
  if input.forward then { s with acceleration := ACCELERATION_RATE }
  else if input.backward then { s with acceleration := -ACCELERATION_RATE }
  else { s with acceleration := 0 }

/-- Drift/brake block of CarPhysics.update: the
`if (input.drift && Math.abs(this.velocity) > 5)` branch, else drift
recovery, lateral friction and braking. -/
def driftBlock (deltaTime : ℚ) (input : CarInput) (s : CarPhysics) : CarPhysics :=
  let sd := steeringDirection input
  if input.drift ∧ |s.velocity| > 5 then
    let driftFactor := min MAX_DRIFT_FACTOR (s.driftFactor + DRIFT_BUILDUP_RATE * deltaTime)
    let acceleration :=
      if s.velocity > 5 then s.acceleration - BRAKING_RATE * 0.15 else s.acceleration
    let s₁ : CarPhysics :=
      if sd ≠ 0 then
        let slideDirection := sd
        let lateralForce := |s.velocity| * LATERAL_TRANSFER_FACTOR * driftFactor
        let lat₀ := s.lateralVelocity + slideDirection * lateralForce * deltaTime
        let lat₁ :=
          if driftFactor < 0.2 ∧ |lat₀| < 1.0 then lat₀ + slideDirection * 2.0 else lat₀
        let lat₂ := max (-MAX_LATERAL_VELOCITY) (min MAX_LATERAL_VELOCITY lat₁)
        { s with driftFactor := driftFactor, acceleration := acceleration,
                 slideDirection := slideDirection, lateralVelocity := lat₂ }
      else
        { s with driftFactor := driftFactor, acceleration := acceleration }
    if sd = 0 ∧ |s₁.lateralVelocity| > 0 then
      let normalizationRate := 0.8 * deltaTime
      if s₁.lateralVelocity > 0 then
        { s₁ with lateralVelocity := s₁.lateralVelocity - normalizationRate }
      else
        { s₁ with lateralVelocity := s₁.lateralVelocity + normalizationRate }
    else s₁
  else
    let driftFactor := max 0 (s.driftFactor - DRIFT_RECOVERY_RATE * deltaTime)
    let lat :=
      if |s.lateralVelocity| > 0 then
        let frictionForce := LATERAL_FRICTION * deltaTime
        if s.lateralVelocity > 0 then max 0 (s.lateralVelocity - frictionForce)
        else min 0 (s.lateralVelocity + frictionForce)
      else s.lateralVelocity
    let acceleration :=
      if input.brake then
        if s.velocity > 0 then -BRAKING_RATE
        else if s.velocity < 0 then BRAKING_RATE
        else s.acceleration
      else s.acceleration
    { s with driftFactor := driftFactor, lateralVelocity := lat,
             acceleration := acceleration }

/-- Velocity integration of CarPhysics.update:
`this.velocity += this.acceleration * deltaTime`. -/
def integrateVelocity (deltaTime : ℚ) (s : CarPhysics) : CarPhysics :=
  { s with velocity := s.velocity + s.acceleration * deltaTime }

/-- Natural deceleration block of CarPhysics.update (decay toward 0 when no
throttle/brake input, clamped so it cannot cross zero). -/
def naturalDecel (deltaTime : ℚ) (input : CarInput) (s : CarPhysics) : CarPhysics :=
  if ¬input.forward ∧ ¬input.backward ∧ ¬input.brake then
    if s.velocity > 0 then
      let v := s.velocity - DECELERATION_RATE * deltaTime
      { s with velocity := if v < 0 then 0 else v }
    else if s.velocity < 0 then
      let v := s.velocity + DECELERATION_RATE * deltaTime
      { s with velocity := if v > 0 then 0 else v }
    else s
  else s

/-- Speed clamp of CarPhysics.update: velocity clamped to
[MAX_REVERSE_SPEED, maxSpeed] with maxSpeed reduced off-track. -/
def clampVelocity (isOffTrack : Bool) (s : CarPhysics) : CarPhysics :=
  let maxSpeed := if isOffTrack then OFF_TRACK_MAX_SPEED else MAX_SPEED
  if s.velocity > maxSpeed then { s with velocity := maxSpeed }
  else if s.velocity < MAX_REVERSE_SPEED then { s with velocity := MAX_REVERSE_SPEED }
  else s

/-- Steering accumulation/reset block of CarPhysics.update. -/
def steeringBlock (deltaTime : ℚ) (input : CarInput) (s : CarPhysics) : CarPhysics :=
  let steeringModifier :=
    if s.driftFactor > 0 then
      DRIFT_STEERING_FACTOR * (1.0 - min 0.6 (|s.lateralVelocity| * 0.1))
    else 1.0
  let baseSteering := STEERING_SPEED * steeringModifier
  if input.left then
    { s with steeringAngle := s.steeringAngle + baseSteering * deltaTime }
  else if input.right then
    { s with steeringAngle := s.steeringAngle - baseSteering * deltaTime }
  else
    let resetSpeed := STEERING_RESET_SPEED * (if s.driftFactor > 0 then 0.5 else 1.0)
    if s.steeringAngle > 0 then
      let a := s.steeringAngle - resetSpeed * deltaTime
      { s with steeringAngle := if a < 0 then 0 else a }
    else if s.steeringAngle < 0 then
      let a := s.steeringAngle + resetSpeed * deltaTime
      { s with steeringAngle := if a > 0 then 0 else a }
    else s

/-- Steering clamp block of CarPhysics.update: maximum angle widened by
drift, tightened off-track. -/
def steeringClampBlock (isOffTrack : Bool) (s : CarPhysics) : CarPhysics :=
  let m₀ := MAX_STEERING_ANGLE
  let m₁ := if s.driftFactor > 0 then m₀ * (1.0 + s.driftFactor * 0.4) else m₀
  let maxSteeringAngle := if isOffTrack then m₁ * OFF_TRACK_STEERING_FACTOR else m₁
  if s.steeringAngle > maxSteeringAngle then { s with steeringAngle := maxSteeringAngle }
  else if s.steeringAngle < -maxSteeringAngle then { s with steeringAngle := -maxSteeringAngle }
  else s

/-- Final block of CarPhysics.update: the speed factor applied to the
steering angle when moving very slowly. -/
def speedFactorBlock (isOffTrack : Bool) (s : CarPhysics) : CarPhysics :=
  let sf₀ := min 1 (|s.velocity| / (MAX_SPEED * 0.45))
  let speedFactor :=
    if s.driftFactor > 0 then sf₀ * (1.0 - s.driftFactor * DRIFT_TRACTION_LOSS)
    else if isOffTrack then sf₀ * OFF_TRACK_TRACTION
    else sf₀
  if |s.velocity| < 2 then { s with steeringAngle := s.steeringAngle * speedFactor }
  else s

/-- CarPhysics.update up to (and including) the steering clamp; the state
just before the low-speed steering factor is applied. -/
def preUpdate (deltaTime : ℚ) (input : CarInput) (isOffTrack : Bool)
    (s : CarPhysics) : CarPhysics :=
  steeringClampBlock isOffTrack
    (steeringBlock deltaTime input
      (clampVelocity isOffTrack
        (naturalDecel deltaTime input
          (integrateVelocity deltaTime
            (driftBlock deltaTime input
              (accelBlock input s))))))

/-- CarPhysics.update (src/src/game/car/CarPhysics.ts lines 43-207), as a
pure state transition. -/
def update (deltaTime : ℚ) (input : CarInput) (isOffTrack : Bool)
    (s : CarPhysics) : CarPhysics :=
  speedFactorBlock isOffTrack (preUpdate deltaTime input isOffTrack s)

/-- CarPhysics.reverseVelocity (src/src/game/car/CarPhysics.ts lines
209-214): collision response on the dynamics state. -/
def reverseVelocity (factor : ℚ) (s : CarPhysics) : CarPhysics :=
  { s with velocity := -s.velocity * factor,
           lateralVelocity := s.lateralVelocity * (-0.3) }

end CarPhysics

/-- The all-false input snapshot (no key pressed). -/
def restInput : CarInput :=
  ⟨false, false, false, false, false, false⟩

/-- Iterated CarPhysics.update over a list of (deltaTime, isOffTrack) ticks
with a fixed input snapshot. -/
def runUpdates (input : CarInput) (ticks : List (ℚ × Bool)) (s : CarPhysics) :
    CarPhysics :=
  ticks.foldl (fun st t => CarPhysics.update t.1 input t.2 st) s

/-- The low-speed steering factor as the specification words it:
`min(1, |velocity|/(0.45·MAX_SPEED))`, further reduced by drift traction
loss when driftFactor > 0, or by off-track traction when off track.
Compared below with the factor CarPhysics.update actually applies. -/
def claimedLowSpeedFactor (v df : ℚ) (isOffTrack : Bool) : ℚ :=
  min 1 (|v| / (0.45 * CarPhysics.MAX_SPEED)) *
    (if df > 0 then 1 - df * CarPhysics.DRIFT_TRACTION_LOSS
     else if isOffTrack then CarPhysics.OFF_TRACK_TRACTION else 1)

/-- CarController suspension constant restLength (GameEngine.ts line 259). -/
def restLength : ℚ := 0.3
/-- CarController suspension constant springConstant (GameEngine.ts line 260). -/
def springConstant : ℚ := 80.0
/-- CarController suspension constant damperConstant (GameEngine.ts line 261). -/
def damperConstant : ℚ := 10.0
/-- CarController field carMass (GameEngine.ts line 262). -/
def carMass : ℚ := 1.0
/-- CarController suspension constant minSuspension (GameEngine.ts line 263). -/
def minSuspension : ℚ := 0.05
/-- CarController suspension constant maxSuspension (GameEngine.ts line 264). -/
def maxSuspension : ℚ := 0.4

/-- Per-wheel suspension record (GameEngine.ts, suspensionValues entries). -/
structure Suspension where
  compression : ℚ
  velocity : ℚ
  targetHeight : ℚ
  currentHeight : ℚ
deriving Repr, DecidableEq

/-- Initial suspension state pushed for each wheel in the CarController
constructor (GameEngine.ts lines 348-356): currentHeight starts at
restLength. -/
def suspInit : Suspension := ⟨0, 0, 0, restLength⟩

/-- The unclamped spring-damper integration for one wheel inside
CarController.applyTerrainPhysics (GameEngine.ts lines 689-710): returns
(compression, velocity, currentHeight) before the clamp. -/
def suspIntegrate (dt wheelHeight groundHeight : ℚ) (s : Suspension) :
    ℚ × ℚ × ℚ :=
  let currentLength := wheelHeight - groundHeight
  let compression := restLength - currentLength
  let springForce := springConstant * compression
  let damperForce := damperConstant * s.velocity
  let force := springForce - damperForce
  let acceleration := force / carMass
  let v := s.velocity + acceleration * dt
  (compression, v, s.currentHeight + v * dt)

/-- One wheel's suspension update in CarController.applyTerrainPhysics
(GameEngine.ts lines 653-730): `hit` is the downward raycast result (the
ground height at the hit point), none when no intersection was found, in
which case the wheel's suspension state is left untouched that tick;
otherwise integrate and clamp currentHeight to
[minSuspension, maxSuspension], zeroing the spring velocity at the bound. -/
def suspStep (dt wheelHeight : ℚ) (hit : Option ℚ) (s : Suspension) : Suspension :=
  match hit with
  | none => s
  | some groundHeight =>
    let c := suspIntegrate dt wheelHeight groundHeight s
    if c.2.2 < minSuspension then ⟨c.1, 0, s.targetHeight, minSuspension⟩
    else if c.2.2 > maxSuspension then ⟨c.1, 0, s.targetHeight, maxSuspension⟩
    else ⟨c.1, c.2.1, s.targetHeight, c.2.2⟩

/-- A wheel's suspension state after a sequence of ticks, each carrying
(dt, world wheel height, raycast result). -/
def suspRun (ticks : List (ℚ × ℚ × Option ℚ)) (s : Suspension) : Suspension :=
  ticks.foldl (fun st t => suspStep t.1 t.2.1 t.2.2 st) s

/-- CarController constant TRAIL_SPAWN_INTERVAL (GameEngine.ts line 230). -/
def TRAIL_SPAWN_INTERVAL : ℚ := 0.05

/-- The clamp at the top of CarController.update (GameEngine.ts line 364):
`const dt = Math.min(deltaTime, 0.03)` — the simulated time step derived
from the raw frame delta. -/
def clampDt (deltaTime : ℚ) : ℚ := min deltaTime 0.03

/-- Trail-gate state of CarController: lastTrailTime and wasTrailing
(GameEngine.ts lines 229, 232), lastTrailTime initialised to 0. -/
structure TrailState where
  lastTrailTime : ℚ
  wasTrailing : Bool
deriving Repr, DecidableEq

/-- The drift-trail gate at the end of CarController.update (GameEngine.ts
lines 501-510): `currentTime` is this.clock.getElapsedTime(), the elapsed
time of the controller's own THREE.Clock started at construction (wall
time).  Returns whether createDriftTrails runs this tick, and the updated
gate state (wasTrailing := shouldTrail in all cases). -/
def trailGate (shouldTrail : Bool) (currentTime : ℚ) (s : TrailState) :
    Bool × TrailState :=
  if shouldTrail then
    if currentTime - s.lastTrailTime > TRAIL_SPAWN_INTERVAL then
      (true, { lastTrailTime := currentTime, wasTrailing := true })
    else (false, { s with wasTrailing := true })
  else (false, { s with wasTrailing := false })

/-- The trail gate iterated over ticks; each tick carries (raw frame delta,
shouldTrail).  `wall` is the clock's elapsed time before the tick; the
clock advances by the raw delta, not by the clamped simulated dt.  Returns
the per-tick emission decisions and the final gate state. -/
def trailRunAux (wall : ℚ) (ticks : List (ℚ × Bool)) (s : TrailState) :
    List Bool × TrailState :=
  match ticks with
  | [] => ([], s)
  | (rawDelta, shouldTrail) :: rest =>
    let wall' := wall + rawDelta
    let r := trailGate shouldTrail wall' s
    let next := trailRunAux wall' rest r.2
    (r.1 :: next.1, next.2)

/-- Trail-gate run from construction: clock elapsed 0, lastTrailTime 0,
wasTrailing false. -/
def trailRun (ticks : List (ℚ × Bool)) : List Bool × TrailState :=
  trailRunAux 0 ticks ⟨0, false⟩

/-- Modelled from the spec: the dynamics state of the later CarPhysics
revision — the one whose accessors getYawRate and getSlipAngle the
CarController in GameEngine.ts calls; that revision's source file is not
under src/.  Fields follow the VehicleState data model of the spec (§3). -/
structure CarPhysicsRev where
  velocity : ℚ
  lateralVelocity : ℚ
  yawRate : ℚ
  driftFactor : ℚ
  slipAngle : ℚ
  steeringAngle : ℚ
  slideDirection : ℚ
deriving Repr, DecidableEq

/-- Modelled from the spec: reverseVelocity(factor) of the later CarPhysics
revision (spec §4.1 step 9) — sets velocity = -velocity·factor, damps the
lateral velocity strongly (×-0.3) and damps the yaw rate (×0.2), touching
nothing else. -/
def CarPhysicsRev.reverseVelocity (factor : ℚ) (s : CarPhysicsRev) : CarPhysicsRev :=
  { s with velocity := -s.velocity * factor,
           lateralVelocity := s.lateralVelocity * (-0.3),
           yawRate := s.yawRate * 0.2 }

/-- Math.sign on rationals. -/
def qsign (x : ℚ) : ℚ := if x > 0 then 1 else if x < 0 then -1 else 0

/-- Modelled from the spec: the normalized speed `speedNorm` feeding the
counter-steer yaw term of the later CarPhysics revision (spec §4.1 step 5);
the spec leaves its scale implicit, taken here as |velocity|/MAX_SPEED. -/
def CarPhysicsRev.speedNorm (s : CarPhysicsRev) : ℚ :=
  |s.velocity| / CarPhysics.MAX_SPEED

/-- Modelled from the spec: counter-steer detection of the later CarPhysics
revision — the player steers opposite to the current slide direction (sign
comparison, spec §4.1 step 5 and glossary), i.e. the steering input
direction and the lateral velocity have strictly opposite signs. -/
def CarPhysicsRev.counterSteer (steerDir : ℚ) (s : CarPhysicsRev) : Prop :=
  steerDir * s.lateralVelocity < 0

instance (steerDir : ℚ) (s : CarPhysicsRev) :
    Decidable (CarPhysicsRev.counterSteer steerDir s) := by
  unfold CarPhysicsRev.counterSteer
  infer_instance

/-- Modelled from the spec: the yaw-rate computation of the later
CarPhysics revision (spec §4.1 step 5) — a direct term
steeringAngle·|velocity|·sign(velocity) plus, only when driftFactor > 0.05,
either a counter-steer corrective term proportional (gain csGain) to
-sign(lateralVelocity)·driftFactor·speedNorm, or the oversteer term
steeringAngle·driftFactor·|velocity|. -/
def CarPhysicsRev.computeYawRate (csGain steerDir : ℚ) (s : CarPhysicsRev) : ℚ :=
  let direct := s.steeringAngle * |s.velocity| * qsign s.velocity
  let driftTerm :=
    if s.driftFactor > 0.05 then
      if CarPhysicsRev.counterSteer steerDir s then
        -qsign s.lateralVelocity * s.driftFactor * CarPhysicsRev.speedNorm s * csGain
      else s.steeringAngle * s.driftFactor * |s.velocity|
    else 0
  direct + driftTerm

/-- CarController constant GRAVITY (GameEngine.ts line 238). -/
def GRAVITY : ℚ := 20.0

/-- Gravity-related state of CarController: verticalVelocity, airborneTime,
isGrounded, the vertical position component, and the owned dynamics state
that the hard-landing branch scrubs. -/
structure GravityState where
  verticalVelocity : ℚ
  airborneTime : ℚ
  posY : ℚ
  isGrounded : Bool
  phys : CarPhysicsRev
deriving Repr, DecidableEq

/-- CarController.checkGrounded (GameEngine.ts lines 557-580): with neither
a ground mesh nor a track mesh held it returns true immediately;
otherwise `lowestClearance` is the minimum wheel clearance found by the
four downward raycasts (none when no ray hit anything, modelling the
untouched Infinity), compared against minDistance = 0.5. -/
def checkGrounded (hasGroundMesh hasTrackMesh : Bool)
    (lowestClearance : Option ℚ) : Bool :=
  if ¬hasGroundMesh ∧ ¬hasTrackMesh then true
  else
    match lowestClearance with
    | some c => decide (c < 0.5)
    | none => false

/-- CarController.applyGravity (GameEngine.ts lines 516-555); ray1 and
ray2 are the wheel-clearance raycast results of the tick's first and
second checkGrounded calls. -/
def applyGravity (hasGroundMesh hasTrackMesh : Bool) (ray1 ray2 : Option ℚ)
    (dt : ℚ) (s : GravityState) : GravityState :=
  if checkGrounded hasGroundMesh hasTrackMesh ray1 then
    { s with isGrounded := true, verticalVelocity := 0, airborneTime := 0 }
  else
    let vv := s.verticalVelocity - GRAVITY * dt
    let at' := s.airborneTime + dt
    let posY := s.posY + vv * dt
    if checkGrounded hasGroundMesh hasTrackMesh ray2 then
      let impactForce := |vv|
      if impactForce > 5 then
        let phys' :=
          if |s.phys.velocity| > 0.5 then CarPhysicsRev.reverseVelocity 0.2 s.phys
          else s.phys
        { verticalVelocity := impactForce * 0.3, airborneTime := at', posY := posY,
          isGrounded := true, phys := phys' }
      else
        { verticalVelocity := 0, airborneTime := at', posY := posY,
          isGrounded := true, phys := s.phys }
    else
      { s with verticalVelocity := vv, airborneTime := at', posY := posY,
               isGrounded := false }

/-- applyGravity iterated over ticks of (ray1, ray2, dt). -/
def gravityRun (hasGroundMesh hasTrackMesh : Bool)
    (ticks : List (Option ℚ × Option ℚ × ℚ)) (s : GravityState) : GravityState :=
  ticks.foldl (fun st t => applyGravity hasGroundMesh hasTrackMesh t.1 t.2.1 t.2.2 st) s

/-- three.js Vector3 restricted to what the collision-commit step of
CarController.update touches. -/
structure Vec3 where
  x : ℝ
  y : ℝ
  z : ℝ

/-- three.js Vector3.length. -/
noncomputable def Vec3.length (v : Vec3) : ℝ :=
  Real.sqrt (v.x ^ 2 + v.y ^ 2 + v.z ^ 2)

open Classical

/-- three.js Vector3.normalize: divideScalar(length() || 1) — divides by
the length, or by 1 when the length is 0. -/
noncomputable def Vec3.normalize (v : Vec3) : Vec3 :=
  let l := if Vec3.length v = 0 then 1 else Vec3.length v
  ⟨v.x / l, v.y / l, v.z / l⟩

/-- three.js Vector3.subVectors. -/
def Vec3.sub (a b : Vec3) : Vec3 :=
  ⟨a.x - b.x, a.y - b.y, a.z - b.z⟩

/-- CarController field collisionDistance (GameEngine.ts line 236). -/
def collisionDistance : ℝ := 0.8

/-- Result of CarController.checkCollisions. -/
structure CollisionResult where
  hasCollision : Bool
  collisionPoint : Vec3

/-- CarController.checkCollisions (GameEngine.ts lines 596-643) with the
four per-direction raycasts abstracted as inputs: each probe holds the
nearest intersection (distance, point) the raycaster returns for that
direction, none when the ray hits nothing; the none nearest-accumulator
models the initial Infinity. -/
noncomputable def checkCollisions (probes : List (Option (ℝ × Vec3))) :
    CollisionResult :=
  let r := probes.foldl
    (fun (acc : Bool × Option ℝ × Vec3) probe =>
      match probe with
      | none => acc
      | some dp =>
        if dp.1 < collisionDistance then
          match acc.2.1 with
          | none => (true, some dp.1, dp.2)
          | some nearest =>
            if dp.1 < nearest then (true, some dp.1, dp.2)
            else (true, acc.2.1, acc.2.2)
        else acc)
    (false, none, ⟨0, 0, 0⟩)
  ⟨r.1, r.2.2⟩

/-- Planar state the collision-commit step works on: the controller's
position and its owned dynamics state. -/
structure ControllerState where
  position : Vec3
  phys : CarPhysicsRev

/-- The position-commit step of CarController.update (GameEngine.ts lines
408-447): build the tentative newPosition from the forward velocity and
(when above the 0.05 dead zone) the lateral velocity, check collisions,
then either commit the tentative position, or keep the previous position,
apply reverseVelocity(0.5) and nudge away from the collision point by
|velocity|·0.05 along the normalized horizontal to-car direction.
(dirX, dirZ) is the heading unit vector recomputed from rotation.y just
above; edt is the effective delta time. -/
noncomputable def commitStep (edt dirX dirZ : ℝ)
    (probes : List (Option (ℝ × Vec3))) (s : ControllerState) : ControllerState :=
  let velocity : ℝ := (s.phys.velocity : ℚ)
  let lateralVelocity : ℝ := (s.phys.lateralVelocity : ℚ)
  let latX := -dirZ
  let latZ := dirX
  let np : Vec3 := ⟨s.position.x + dirX * velocity * edt, s.position.y,
                    s.position.z + dirZ * velocity * edt⟩
  let newPosition : Vec3 :=
    if |lateralVelocity| > 0.05 then
      ⟨np.x + latX * lateralVelocity * edt, np.y, np.z + latZ * lateralVelocity * edt⟩
    else np
  let col := checkCollisions probes
  if col.hasCollision = false then
    { s with position := newPosition }
  else
    let phys' := CarPhysicsRev.reverseVelocity 0.5 s.phys
    let pd := Vec3.normalize (Vec3.sub s.position col.collisionPoint)
    let pushDirection : Vec3 := ⟨pd.x, 0, pd.z⟩
    let pushForce := |velocity| * 0.05
    { position := ⟨s.position.x + pushDirection.x * pushForce, s.position.y,
                   s.position.z + pushDirection.z * pushForce⟩,
      phys := phys' }

/-- The probe set of the concrete collision tick used below: the forward
ray hits at distance 0.5 < collisionDistance at point (1,0,0); the other
three rays hit nothing. -/
noncomputable def probesHit : List (Option (ℝ × Vec3)) :=
  [some (0.5, ⟨1, 0, 0⟩), none, none, none]

/-- The concrete pre-tick controller state used below: position at the
origin, dynamics at forward velocity 10 with no slide. -/
def ctrlHit : ControllerState :=
  ⟨⟨0, 0, 0⟩, ⟨10, 0, 0, 0, 0, 0, 0⟩⟩

namespace CarPhysics

lemma steeringBlock_velocity (deltaTime : ℚ) (input : CarInput) (s : CarPhysics) :
    (steeringBlock deltaTime input s).velocity = s.velocity := by
  unfold steeringBlock
  dsimp only
  split_ifs <;> rfl

lemma steeringClampBlock_velocity (isOffTrack : Bool) (s : CarPhysics) :
    (steeringClampBlock isOffTrack s).velocity = s.velocity := by
  unfold steeringClampBlock
  dsimp only
  split_ifs <;> rfl

lemma speedFactorBlock_velocity (isOffTrack : Bool) (s : CarPhysics) :
    (speedFactorBlock isOffTrack s).velocity = s.velocity := by
  unfold speedFactorBlock
  dsimp only
  split_ifs <;> rfl

lemma steeringBlock_driftFactor (deltaTime : ℚ) (input : CarInput) (s : CarPhysics) :
    (steeringBlock deltaTime input s).driftFactor = s.driftFactor := by
  unfold steeringBlock
  dsimp only
  split_ifs <;> rfl

lemma steeringClampBlock_driftFactor (isOffTrack : Bool) (s : CarPhysics) :
    (steeringClampBlock isOffTrack s).driftFactor = s.driftFactor := by
  unfold steeringClampBlock
  dsimp only
  split_ifs <;> rfl

lemma speedFactorBlock_driftFactor (isOffTrack : Bool) (s : CarPhysics) :
    (speedFactorBlock isOffTrack s).driftFactor = s.driftFactor := by
  unfold speedFactorBlock
  dsimp only
  split_ifs <;> rfl

lemma accelBlock_velocity (input : CarInput) (s : CarPhysics) :
    (accelBlock input s).velocity = s.velocity := by
  unfold accelBlock
  split_ifs <;> rfl

lemma accelBlock_driftFactor (input : CarInput) (s : CarPhysics) :
    (accelBlock input s).driftFactor = s.driftFactor := by
  unfold accelBlock
  split_ifs <;> rfl

lemma integrateVelocity_driftFactor (deltaTime : ℚ) (s : CarPhysics) :
    (integrateVelocity deltaTime s).driftFactor = s.driftFactor := rfl

lemma naturalDecel_driftFactor (deltaTime : ℚ) (input : CarInput) (s : CarPhysics) :
    (naturalDecel deltaTime input s).driftFactor = s.driftFactor := by
  unfold naturalDecel
  dsimp only
  split_ifs <;> rfl

lemma clampVelocity_driftFactor (isOffTrack : Bool) (s : CarPhysics) :
    (clampVelocity isOffTrack s).driftFactor = s.driftFactor := by
  unfold clampVelocity
  dsimp only
  split_ifs <;> rfl

lemma driftBlock_driftFactor (deltaTime : ℚ) (input : CarInput) (s : CarPhysics) :
    (driftBlock deltaTime input s).driftFactor =
      if input.drift ∧ |s.velocity| > 5 then
        min MAX_DRIFT_FACTOR (s.driftFactor + DRIFT_BUILDUP_RATE * deltaTime)
      else max 0 (s.driftFactor - DRIFT_RECOVERY_RATE * deltaTime) := by
  unfold driftBlock
  dsimp only
  split_ifs <;> rfl

lemma update_driftFactor_eq (deltaTime : ℚ) (input : CarInput) (isOffTrack : Bool)
    (s : CarPhysics) :
    (update deltaTime input isOffTrack s).driftFactor =
      (driftBlock deltaTime input (accelBlock input s)).driftFactor := by
  unfold update preUpdate
  rw [speedFactorBlock_driftFactor, steeringClampBlock_driftFactor,
    steeringBlock_driftFactor, clampVelocity_driftFactor, naturalDecel_driftFactor,
    integrateVelocity_driftFactor]

lemma clampVelocity_bounds (isOffTrack : Bool) (s : CarPhysics) :
    MAX_REVERSE_SPEED ≤ (clampVelocity isOffTrack s).velocity ∧
      (clampVelocity isOffTrack s).velocity ≤
        (if isOffTrack then OFF_TRACK_MAX_SPEED else MAX_SPEED) := by
  unfold clampVelocity MAX_REVERSE_SPEED OFF_TRACK_MAX_SPEED MAX_SPEED
  cases isOffTrack <;> simp only [Bool.false_eq_true, if_false, if_true] <;>
    split_ifs <;> constructor <;> norm_num <;> linarith

lemma update_velocity_eq_clamp (deltaTime : ℚ) (input : CarInput) (isOffTrack : Bool)
    (s : CarPhysics) :
    (update deltaTime input isOffTrack s).velocity =
      (clampVelocity isOffTrack
        (naturalDecel deltaTime input
          (integrateVelocity deltaTime
            (driftBlock deltaTime input (accelBlock input s))))).velocity := by
  unfold update preUpdate
  rw [speedFactorBlock_velocity, steeringClampBlock_velocity, steeringBlock_velocity]

end CarPhysics

/-- C3: after any CarPhysics.update call — for every input combination, every
isOffTrack flag and every starting state (in particular every reachable one)
— the forward velocity lies in [MAX_REVERSE_SPEED, maxSpeed(isOffTrack)]:
velocity ≥ -10, and velocity ≤ 25 on-track, ≤ 15 off-track. -/
theorem velocity_bounded_after_update (deltaTime : ℚ) (input : CarInput)
    (isOffTrack : Bool) (s : CarPhysics) :
    (-10 : ℚ) ≤ (CarPhysics.update deltaTime input isOffTrack s).velocity ∧
      (CarPhysics.update deltaTime input isOffTrack s).velocity ≤
        (if isOffTrack then 15 else 25) := by
  rw [CarPhysics.update_velocity_eq_clamp]
  have h := CarPhysics.clampVelocity_bounds isOffTrack
    (CarPhysics.naturalDecel deltaTime input
      (CarPhysics.integrateVelocity deltaTime
        (CarPhysics.driftBlock deltaTime input (CarPhysics.accelBlock input s))))
  unfold CarPhysics.MAX_REVERSE_SPEED CarPhysics.OFF_TRACK_MAX_SPEED
    CarPhysics.MAX_SPEED at h
  exact h

/-- C4 counterexample: with the drift input held, `|velocity| = 4 > 3`,
positive dt and driftFactor strictly below 1, the code strictly DECREASES
driftFactor (the buildup threshold in CarPhysics.update is
`Math.abs(velocity) > 5`, not `> 3`). -/
theorem driftFactor_buildup_threshold_counterexample :
    (CarInput.mk false false false false false true).drift = true ∧
      |(CarPhysics.mk 4 0 0 0 (1/2) 0).velocity| > 3 ∧
      (CarPhysics.mk 4 0 0 0 (1/2) 0).driftFactor < 1 ∧
      (0 : ℚ) < 1/100 ∧
      (CarPhysics.update (1/100) (CarInput.mk false false false false false true)
          false (CarPhysics.mk 4 0 0 0 (1/2) 0)).driftFactor <
        (CarPhysics.mk 4 0 0 0 (1/2) 0).driftFactor := by
  refine ⟨rfl, by norm_num, by norm_num, by norm_num, ?_⟩
  rw [CarPhysics.update_driftFactor_eq, CarPhysics.driftBlock_driftFactor,
    CarPhysics.accelBlock_velocity, CarPhysics.accelBlock_driftFactor]
  norm_num [CarPhysics.DRIFT_RECOVERY_RATE, max_def]

/-- C4 (amended): driftFactor stays in [0,1] across updates; within one
update with positive dt it strictly increases only while the drift input is
held and `|velocity| > 5` (the velocity read at tick entry), and strictly
decreases otherwise — in both cases up to clamping at 0/1. -/
theorem driftFactor_bounds_and_monotonicity (deltaTime : ℚ) (input : CarInput)
    (isOffTrack : Bool) (s : CarPhysics)
    (hd0 : 0 ≤ s.driftFactor) (hd1 : s.driftFactor ≤ 1) (hdt : 0 ≤ deltaTime) :
    (0 ≤ (CarPhysics.update deltaTime input isOffTrack s).driftFactor ∧
      (CarPhysics.update deltaTime input isOffTrack s).driftFactor ≤ 1) ∧
    (0 < deltaTime → input.drift = true → |s.velocity| > 5 → s.driftFactor < 1 →
      s.driftFactor < (CarPhysics.update deltaTime input isOffTrack s).driftFactor) ∧
    (0 < deltaTime → ¬(input.drift = true ∧ |s.velocity| > 5) → 0 < s.driftFactor →
      (CarPhysics.update deltaTime input isOffTrack s).driftFactor < s.driftFactor) := by
  rw [CarPhysics.update_driftFactor_eq, CarPhysics.driftBlock_driftFactor,
    CarPhysics.accelBlock_velocity, CarPhysics.accelBlock_driftFactor]
  have e1 : CarPhysics.MAX_DRIFT_FACTOR = 1 := by norm_num [CarPhysics.MAX_DRIFT_FACTOR]
  have e2 : CarPhysics.DRIFT_BUILDUP_RATE = 5 := by norm_num [CarPhysics.DRIFT_BUILDUP_RATE]
  have e3 : CarPhysics.DRIFT_RECOVERY_RATE = 3 := by norm_num [CarPhysics.DRIFT_RECOVERY_RATE]
  rw [e1, e2, e3]
  constructor
  · split_ifs with h
    · constructor
      · exact le_min (by norm_num) (by linarith)
      · exact min_le_left _ _
    · constructor
      · exact le_max_left _ _
      · exact max_le (by norm_num) (by linarith)
  constructor
  · intro hpos hdrift hv hlt
    rw [if_pos ⟨hdrift, hv⟩]
    exact lt_min (by linarith) (by linarith)
  · intro hpos hcond hgt
    rw [if_neg (by simpa using hcond)]
    exact max_lt (by linarith) (by linarith)

/-- Witness for C4: concrete instantiations of the bound and of strict
buildup at velocity 6 with the drift input held. -/
theorem driftFactor_bounds_and_monotonicity_witness :
    (0 ≤ (CarPhysics.update (1/50) (CarInput.mk false false false false false true)
        false (CarPhysics.mk 6 0 0 0 (1/2) 0)).driftFactor ∧
      (CarPhysics.update (1/50) (CarInput.mk false false false false false true)
        false (CarPhysics.mk 6 0 0 0 (1/2) 0)).driftFactor ≤ 1) ∧
    (CarPhysics.mk 6 0 0 0 (1/2) 0).driftFactor <
      (CarPhysics.update (1/50) (CarInput.mk false false false false false true)
        false (CarPhysics.mk 6 0 0 0 (1/2) 0)).driftFactor := by
  have h := driftFactor_bounds_and_monotonicity (1/50)
    (CarInput.mk false false false false false true) false
    (CarPhysics.mk 6 0 0 0 (1/2) 0) (by norm_num) (by norm_num) (by norm_num)
  exact ⟨h.1, h.2.1 (by norm_num) rfl (by norm_num) (by norm_num)⟩

lemma update_rest (deltaTime : ℚ) (hdt : 0 ≤ deltaTime) (isOffTrack : Bool)
    (a sl : ℚ) :
    CarPhysics.update deltaTime restInput isOffTrack ⟨0, a, 0, 0, 0, sl⟩ =
      ⟨0, 0, 0, 0, 0, sl⟩ := by
  have h1 : CarPhysics.accelBlock restInput ⟨0, a, 0, 0, 0, sl⟩ = ⟨0, 0, 0, 0, 0, sl⟩ := by
    norm_num [CarPhysics.accelBlock, restInput]
  have h2 : CarPhysics.driftBlock deltaTime restInput ⟨0, 0, 0, 0, 0, sl⟩ =
      ⟨0, 0, 0, 0, 0, sl⟩ := by
    have hmax : max 0 ((0 : ℚ) - CarPhysics.DRIFT_RECOVERY_RATE * deltaTime) = 0 := by
      apply max_eq_left
      unfold CarPhysics.DRIFT_RECOVERY_RATE
      linarith
    norm_num [CarPhysics.driftBlock, CarPhysics.steeringDirection, restInput] at hmax ⊢
    exact hmax
  have h3 : CarPhysics.integrateVelocity deltaTime ⟨0, 0, 0, 0, 0, sl⟩ =
      ⟨0, 0, 0, 0, 0, sl⟩ := by
    norm_num [CarPhysics.integrateVelocity]
  have h4 : CarPhysics.naturalDecel deltaTime restInput ⟨0, 0, 0, 0, 0, sl⟩ =
      ⟨0, 0, 0, 0, 0, sl⟩ := by
    norm_num [CarPhysics.naturalDecel, restInput]
  have h5 : CarPhysics.clampVelocity isOffTrack ⟨0, 0, 0, 0, 0, sl⟩ =
      ⟨0, 0, 0, 0, 0, sl⟩ := by
    cases isOffTrack <;>
      norm_num [CarPhysics.clampVelocity, CarPhysics.MAX_SPEED,
        CarPhysics.OFF_TRACK_MAX_SPEED, CarPhysics.MAX_REVERSE_SPEED]
  have h6 : CarPhysics.steeringBlock deltaTime restInput ⟨0, 0, 0, 0, 0, sl⟩ =
      ⟨0, 0, 0, 0, 0, sl⟩ := by
    norm_num [CarPhysics.steeringBlock, restInput]
  have h7 : CarPhysics.steeringClampBlock isOffTrack ⟨0, 0, 0, 0, 0, sl⟩ =
      ⟨0, 0, 0, 0, 0, sl⟩ := by
    cases isOffTrack <;>
      norm_num [CarPhysics.steeringClampBlock, CarPhysics.MAX_STEERING_ANGLE,
        CarPhysics.OFF_TRACK_STEERING_FACTOR]
  have h8 : CarPhysics.speedFactorBlock isOffTrack ⟨0, 0, 0, 0, 0, sl⟩ =
      ⟨0, 0, 0, 0, 0, sl⟩ := by
    cases isOffTrack <;>
      norm_num [CarPhysics.speedFactorBlock, CarPhysics.MAX_SPEED,
        CarPhysics.OFF_TRACK_TRACTION, CarPhysics.DRIFT_TRACTION_LOSS]
  unfold CarPhysics.update CarPhysics.preUpdate
  rw [h1, h2, h3, h4, h5, h6, h7, h8]

lemma update_rest_pred (deltaTime : ℚ) (hdt : 0 ≤ deltaTime) (isOffTrack : Bool)
    (s : CarPhysics) (hv : s.velocity = 0) (hl : s.lateralVelocity = 0)
    (hd : s.driftFactor = 0) (hst : s.steeringAngle = 0) :
    (CarPhysics.update deltaTime restInput isOffTrack s).velocity = 0 ∧
      (CarPhysics.update deltaTime restInput isOffTrack s).lateralVelocity = 0 ∧
      (CarPhysics.update deltaTime restInput isOffTrack s).driftFactor = 0 ∧
      (CarPhysics.update deltaTime restInput isOffTrack s).steeringAngle = 0 := by
  obtain ⟨v, a, st, l, d, sl⟩ := s
  dsimp only at hv hl hd hst
  subst hv hl hd hst
  rw [update_rest deltaTime hdt isOffTrack a sl]
  exact ⟨rfl, rfl, rfl, rfl⟩

/-- C7: the all-zero rest state is a fixed point — starting from
velocity = 0, lateralVelocity = 0, driftFactor = 0 and steeringAngle = 0,
any number of update calls with all inputs false and positive dt (any
isOffTrack flags) leaves each of those state variables exactly 0. -/
theorem rest_state_is_fixed_point (ticks : List (ℚ × Bool))
    (hdt : ∀ t ∈ ticks, 0 < t.1) (s : CarPhysics)
    (hv : s.velocity = 0) (hl : s.lateralVelocity = 0)
    (hd : s.driftFactor = 0) (hst : s.steeringAngle = 0) :
    (runUpdates restInput ticks s).velocity = 0 ∧
      (runUpdates restInput ticks s).lateralVelocity = 0 ∧
      (runUpdates restInput ticks s).driftFactor = 0 ∧
      (runUpdates restInput ticks s).steeringAngle = 0 := by
  induction ticks generalizing s with
  | nil => exact ⟨hv, hl, hd, hst⟩
  | cons t ts ih =>
    have hstep := update_rest_pred t.1 (le_of_lt (hdt t (List.mem_cons_self t ts))) t.2
      s hv hl hd hst
    have hts : ∀ u ∈ ts, 0 < u.1 := fun u hu => hdt u (List.mem_cons_of_mem t hu)
    have hrun : runUpdates restInput (t :: ts) s =
        runUpdates restInput ts (CarPhysics.update t.1 restInput t.2 s) := rfl
    rw [hrun]
    exact ih hts _ hstep.1 hstep.2.1 hstep.2.2.1 hstep.2.2.2

/-- Witness for C7: two concrete rest ticks starting from the zero state. -/
theorem rest_state_is_fixed_point_witness :
    (runUpdates restInput [(1/60, false), (1/100, true)] ⟨0, 0, 0, 0, 0, 0⟩).velocity = 0 ∧
      (runUpdates restInput [(1/60, false), (1/100, true)] ⟨0, 0, 0, 0, 0, 0⟩).lateralVelocity = 0 ∧
      (runUpdates restInput [(1/60, false), (1/100, true)] ⟨0, 0, 0, 0, 0, 0⟩).driftFactor = 0 ∧
      (runUpdates restInput [(1/60, false), (1/100, true)] ⟨0, 0, 0, 0, 0, 0⟩).steeringAngle = 0 :=
  rest_state_is_fixed_point [(1/60, false), (1/100, true)]
    (by intro t ht; fin_cases ht <;> norm_num) ⟨0, 0, 0, 0, 0, 0⟩ rfl rfl rfl rfl

lemma speedFactorBlock_steeringAngle_lowSpeed (isOffTrack : Bool) (p : CarPhysics)
    (h : |p.velocity| < 2) :
    (CarPhysics.speedFactorBlock isOffTrack p).steeringAngle =
      p.steeringAngle * claimedLowSpeedFactor p.velocity p.driftFactor isOffTrack := by
  unfold CarPhysics.speedFactorBlock claimedLowSpeedFactor
  dsimp only
  rw [if_pos h]
  dsimp only
  split_ifs <;>
    norm_num [CarPhysics.MAX_SPEED, CarPhysics.DRIFT_TRACTION_LOSS,
      CarPhysics.OFF_TRACK_TRACTION]

/-- C10: whenever the end-of-tick |velocity| is below 2, CarPhysics.update
multiplies the (already clamped) steering angle by
min(1, |velocity|/(0.45·MAX_SPEED)) further reduced by drift traction loss
or off-track traction; in particular end-of-tick velocity 0 forces the
steering angle to exactly 0, even while a turn key is held. -/
theorem low_speed_steering_attenuation (deltaTime : ℚ) (input : CarInput)
    (isOffTrack : Bool) (s : CarPhysics) :
    (|(CarPhysics.update deltaTime input isOffTrack s).velocity| < 2 →
      (CarPhysics.update deltaTime input isOffTrack s).steeringAngle =
        (CarPhysics.preUpdate deltaTime input isOffTrack s).steeringAngle *
          claimedLowSpeedFactor (CarPhysics.update deltaTime input isOffTrack s).velocity
            (CarPhysics.update deltaTime input isOffTrack s).driftFactor isOffTrack) ∧
    ((CarPhysics.update deltaTime input isOffTrack s).velocity = 0 →
      (CarPhysics.update deltaTime input isOffTrack s).steeringAngle = 0) := by
  have hv : (CarPhysics.update deltaTime input isOffTrack s).velocity =
      (CarPhysics.preUpdate deltaTime input isOffTrack s).velocity :=
    CarPhysics.speedFactorBlock_velocity isOffTrack _
  have hd : (CarPhysics.update deltaTime input isOffTrack s).driftFactor =
      (CarPhysics.preUpdate deltaTime input isOffTrack s).driftFactor :=
    CarPhysics.speedFactorBlock_driftFactor isOffTrack _
  have main : |(CarPhysics.update deltaTime input isOffTrack s).velocity| < 2 →
      (CarPhysics.update deltaTime input isOffTrack s).steeringAngle =
        (CarPhysics.preUpdate deltaTime input isOffTrack s).steeringAngle *
          claimedLowSpeedFactor (CarPhysics.update deltaTime input isOffTrack s).velocity
            (CarPhysics.update deltaTime input isOffTrack s).driftFactor isOffTrack := by
    intro h
    rw [hv] at h
    rw [hv, hd]
    exact speedFactorBlock_steeringAngle_lowSpeed isOffTrack _ h
  refine ⟨main, fun h0 => ?_⟩
  have h2 : |(CarPhysics.update deltaTime input isOffTrack s).velocity| < 2 := by
    rw [h0]; norm_num
  rw [main h2, h0]
  norm_num [claimedLowSpeedFactor]

/-- Witness for C10: the rest state with no input evaluates the attenuated
steering equation at a concrete tick. -/
theorem low_speed_steering_attenuation_witness :
    (CarPhysics.update (1/60) restInput false ⟨0, 0, 0, 0, 0, 0⟩).steeringAngle =
      (CarPhysics.preUpdate (1/60) restInput false ⟨0, 0, 0, 0, 0, 0⟩).steeringAngle *
        claimedLowSpeedFactor
          (CarPhysics.update (1/60) restInput false ⟨0, 0, 0, 0, 0, 0⟩).velocity
          (CarPhysics.update (1/60) restInput false ⟨0, 0, 0, 0, 0, 0⟩).driftFactor
          false := by
  apply (low_speed_steering_attenuation (1/60) restInput false ⟨0, 0, 0, 0, 0, 0⟩).1
  rw [update_rest (1/60) (by norm_num) false 0 0]
  norm_num

lemma suspStep_bounds (dt wheelHeight : ℚ) (hit : Option ℚ) (s : Suspension)
    (h : minSuspension ≤ s.currentHeight ∧ s.currentHeight ≤ maxSuspension) :
    minSuspension ≤ (suspStep dt wheelHeight hit s).currentHeight ∧
      (suspStep dt wheelHeight hit s).currentHeight ≤ maxSuspension := by
  cases hit with
  | none => exact h
  | some groundHeight =>
    unfold suspStep
    dsimp only
    split_ifs with h1 h2
    · constructor <;> norm_num [minSuspension, maxSuspension]
    · constructor <;> norm_num [minSuspension, maxSuspension]
    · exact ⟨not_lt.mp h1, not_lt.mp h2⟩

/-- C6: for every wheel, after construction and after any sequence of ticks
(including ticks whose wheel ray reports no hit) the suspension
currentHeight lies in [minSuspension, maxSuspension] = [0.05, 0.4]; and
whenever the integrated height overshoots a bound, the clamp zeroes the
spring velocity. -/
theorem suspension_height_invariant (ticks : List (ℚ × ℚ × Option ℚ)) :
    (minSuspension ≤ (suspRun ticks suspInit).currentHeight ∧
      (suspRun ticks suspInit).currentHeight ≤ maxSuspension) ∧
    (∀ (dt wheelHeight groundHeight : ℚ) (s : Suspension),
      ((suspIntegrate dt wheelHeight groundHeight s).2.2 < minSuspension ∨
          maxSuspension < (suspIntegrate dt wheelHeight groundHeight s).2.2) →
        (suspStep dt wheelHeight (some groundHeight) s).velocity = 0) := by
  constructor
  · have hinit : minSuspension ≤ suspInit.currentHeight ∧
        suspInit.currentHeight ≤ maxSuspension := by
      norm_num [suspInit, restLength, minSuspension, maxSuspension]
    have hrun : ∀ (ts : List (ℚ × ℚ × Option ℚ)) (s : Suspension),
        minSuspension ≤ s.currentHeight ∧ s.currentHeight ≤ maxSuspension →
        minSuspension ≤ (suspRun ts s).currentHeight ∧
          (suspRun ts s).currentHeight ≤ maxSuspension := by
      intro ts
      induction ts with
      | nil => exact fun s h => h
      | cons t rest ih =>
        intro s h
        exact ih _ (suspStep_bounds t.1 t.2.1 t.2.2 s h)
    exact hrun ticks suspInit hinit
  · intro dt wheelHeight groundHeight s h
    unfold suspStep
    dsimp only
    split_ifs with h1 h2
    · rfl
    · rfl
    · rcases h with h | h
      · exact absurd h h1
      · exact absurd h (by simpa [gt_iff_lt] using h2)

/-- Witness for C6: a tick whose unclamped integration overshoots
maxSuspension leaves the spring velocity at 0. -/
theorem suspension_height_invariant_witness :
    (suspStep 1 0 (some 0) suspInit).velocity = 0 := by
  apply (suspension_height_invariant []).2 1 0 0 suspInit
  right
  norm_num [suspIntegrate, suspInit, restLength, springConstant, damperConstant,
    carMass, maxSuspension]

/-- C8 counterexample: the trail gate is driven by the controller clock's
elapsed wall time, not by accumulated simulated time.  With two ticks of
raw frame delta 0.1 and the trail condition held, the gate emits on both
ticks, although the simulated time elapsed between the two emissions is
clampDt(0.1) = 0.03 < 0.05 = TRAIL_SPAWN_INTERVAL. -/
theorem trail_interval_counterexample :
    (trailRun [(0.1, true), (0.1, true)]).1 = [true, true] ∧
      clampDt 0.1 = 0.03 ∧ ¬(TRAIL_SPAWN_INTERVAL ≤ clampDt 0.1) := by
  refine ⟨?_, by norm_num [clampDt, min_def], by norm_num [clampDt, min_def, TRAIL_SPAWN_INTERVAL]⟩
  norm_num [trailRun, trailRunAux, trailGate, TRAIL_SPAWN_INTERVAL]

/-- C8 (amended): whenever the trail condition holds in a tick, a new trail
segment is created exactly when more than TRAIL_SPAWN_INTERVAL = 0.05 of
the controller clock's elapsed wall time has passed since the last
emission, tracked via the lastTrailTime timestamp, which is set to the
current clock time on emission and otherwise left unchanged. -/
theorem trail_rate_limited_by_clock (shouldTrail : Bool) (currentTime : ℚ)
    (s : TrailState) :
    ((trailGate shouldTrail currentTime s).1 = true ↔
      shouldTrail = true ∧ currentTime - s.lastTrailTime > TRAIL_SPAWN_INTERVAL) ∧
    ((trailGate shouldTrail currentTime s).1 = true →
      (trailGate shouldTrail currentTime s).2.lastTrailTime = currentTime) ∧
    ((trailGate shouldTrail currentTime s).1 = false →
      (trailGate shouldTrail currentTime s).2.lastTrailTime = s.lastTrailTime) := by
  unfold trailGate
  split_ifs with h1 h2
  · simp [h1, h2]
  · simp [h1, h2]
  · simp [h1]

/-- Witness for C8: a concrete emitting tick sets lastTrailTime to the
clock time. -/
theorem trail_rate_limited_by_clock_witness :
    (trailGate true (1/10) ⟨0, false⟩).2.lastTrailTime = 1/10 :=
  (trail_rate_limited_by_clock true (1/10) ⟨0, false⟩).2.1
    (by norm_num [trailGate, TRAIL_SPAWN_INTERVAL])

lemma applyGravity_no_mesh (ray1 ray2 : Option ℚ) (dt : ℚ) (s : GravityState) :
    applyGravity false false ray1 ray2 dt s =
      { s with isGrounded := true, verticalVelocity := 0, airborneTime := 0 } := by
  unfold applyGravity checkGrounded
  simp

lemma gravityRun_no_mesh (ticks : List (Option ℚ × Option ℚ × ℚ)) (s : GravityState) :
    gravityRun false false ticks
        { s with isGrounded := true, verticalVelocity := 0, airborneTime := 0 } =
      { s with isGrounded := true, verticalVelocity := 0, airborneTime := 0 } := by
  induction ticks generalizing s with
  | nil => rfl
  | cons t ts ih =>
    have h1 : gravityRun false false (t :: ts)
        { s with isGrounded := true, verticalVelocity := 0, airborneTime := 0 } =
        gravityRun false false ts
          (applyGravity false false t.1 t.2.1 t.2.2
            { s with isGrounded := true, verticalVelocity := 0, airborneTime := 0 }) := rfl
    rw [h1, applyGravity_no_mesh]
    exact ih s

/-- C9: a controller holding neither a ground mesh nor a track mesh treats
the car as permanently grounded — checkGrounded returns true for every
raycast outcome, and across any nonempty run of applyGravity ticks the
vertical position is never integrated, verticalVelocity and airborneTime
are 0, isGrounded is true, and the dynamics state is never scrubbed. -/
theorem no_meshes_permanently_grounded (t : Option ℚ × Option ℚ × ℚ)
    (ticks : List (Option ℚ × Option ℚ × ℚ)) (s : GravityState) :
    (∀ ray : Option ℚ, checkGrounded false false ray = true) ∧
    (gravityRun false false (t :: ticks) s).isGrounded = true ∧
    (gravityRun false false (t :: ticks) s).verticalVelocity = 0 ∧
    (gravityRun false false (t :: ticks) s).airborneTime = 0 ∧
    (gravityRun false false (t :: ticks) s).posY = s.posY ∧
    (gravityRun false false (t :: ticks) s).phys = s.phys := by
  have h1 : gravityRun false false (t :: ticks) s =
      gravityRun false false ticks (applyGravity false false t.1 t.2.1 t.2.2 s) := rfl
  have h2 : gravityRun false false (t :: ticks) s =
      { s with isGrounded := true, verticalVelocity := 0, airborneTime := 0 } := by
    rw [h1, applyGravity_no_mesh, gravityRun_no_mesh]
  refine ⟨fun ray => by unfold checkGrounded; simp, ?_, ?_, ?_, ?_, ?_⟩ <;>
    rw [h2]

/-- C5: reverseVelocity(factor) of the (spec-modelled) later CarPhysics
revision sets velocity to -velocity·factor, multiplies the lateral velocity
by -0.3 and damps the yaw rate by the factor 0.2, leaving driftFactor,
slipAngle, steeringAngle and slideDirection unchanged. -/
theorem reverseVelocity_contract (factor : ℚ) (s : CarPhysicsRev) :
    (CarPhysicsRev.reverseVelocity factor s).velocity = -s.velocity * factor ∧
    (CarPhysicsRev.reverseVelocity factor s).lateralVelocity =
      s.lateralVelocity * (-0.3) ∧
    (CarPhysicsRev.reverseVelocity factor s).yawRate = s.yawRate * 0.2 ∧
    (CarPhysicsRev.reverseVelocity factor s).driftFactor = s.driftFactor ∧
    (CarPhysicsRev.reverseVelocity factor s).slipAngle = s.slipAngle ∧
    (CarPhysicsRev.reverseVelocity factor s).steeringAngle = s.steeringAngle ∧
    (CarPhysicsRev.reverseVelocity factor s).slideDirection = s.slideDirection :=
  ⟨rfl, rfl, rfl, rfl, rfl, rfl, rfl⟩

/-- C2: the yaw rate of the (spec-modelled) later CarPhysics revision is
the direct term steeringAngle·|velocity|·sign(velocity) alone when
driftFactor ≤ 0.05; with driftFactor > 0.05 it additionally carries the
counter-steer corrective term -sign(lateralVelocity)·driftFactor·speedNorm
(times the gain) when the player steers against the slide, and the
oversteer term steeringAngle·driftFactor·|velocity| otherwise. -/
theorem yaw_rate_decomposition (csGain steerDir : ℚ) (s : CarPhysicsRev) :
    (s.driftFactor ≤ 0.05 →
      CarPhysicsRev.computeYawRate csGain steerDir s =
        s.steeringAngle * |s.velocity| * qsign s.velocity) ∧
    (s.driftFactor > 0.05 → CarPhysicsRev.counterSteer steerDir s →
      CarPhysicsRev.computeYawRate csGain steerDir s =
        s.steeringAngle * |s.velocity| * qsign s.velocity +
          -qsign s.lateralVelocity * s.driftFactor *
            CarPhysicsRev.speedNorm s * csGain) ∧
    (s.driftFactor > 0.05 → ¬CarPhysicsRev.counterSteer steerDir s →
      CarPhysicsRev.computeYawRate csGain steerDir s =
        s.steeringAngle * |s.velocity| * qsign s.velocity +
          s.steeringAngle * s.driftFactor * |s.velocity|) := by
  unfold CarPhysicsRev.computeYawRate
  dsimp only
  refine ⟨fun h => ?_, fun h hc => ?_, fun h hc => ?_⟩
  · rw [if_neg (not_lt.mpr h)]
    ring
  · rw [if_pos h, if_pos hc]
  · rw [if_pos h, if_neg hc]

/-- Witness for C2: the counter-steer case evaluated at a concrete sliding
state (velocity 10, lateral velocity 2, driftFactor 1/2, steering input
against the slide). -/
theorem yaw_rate_decomposition_witness :
    CarPhysicsRev.computeYawRate 1 (-1) ⟨10, 2, 0, 1/2, 0, 1/20, 1⟩ =
      (CarPhysicsRev.mk 10 2 0 (1/2) 0 (1/20) 1).steeringAngle *
          |(CarPhysicsRev.mk 10 2 0 (1/2) 0 (1/20) 1).velocity| *
          qsign (CarPhysicsRev.mk 10 2 0 (1/2) 0 (1/20) 1).velocity +
        -qsign (CarPhysicsRev.mk 10 2 0 (1/2) 0 (1/20) 1).lateralVelocity *
          (CarPhysicsRev.mk 10 2 0 (1/2) 0 (1/20) 1).driftFactor *
          CarPhysicsRev.speedNorm (CarPhysicsRev.mk 10 2 0 (1/2) 0 (1/20) 1) * 1 :=
  (yaw_rate_decomposition 1 (-1) ⟨10, 2, 0, 1/2, 0, 1/20, 1⟩).2.1 (by norm_num)
    (by norm_num [CarPhysicsRev.counterSteer])

lemma checkCollisions_probesHit :
    checkCollisions probesHit = ⟨true, ⟨1, 0, 0⟩⟩ := by
  unfold checkCollisions probesHit
  norm_num [List.foldl, collisionDistance]

lemma normalize_negX : Vec3.normalize ⟨-1, 0, 0⟩ = ⟨-1, 0, 0⟩ := by
  unfold Vec3.normalize Vec3.length
  have h : Real.sqrt ((-1 : ℝ) ^ 2 + 0 ^ 2 + 0 ^ 2) = 1 := by
    norm_num
  rw [h]
  norm_num

/-- C1 (amended): on a tick whose collision probe reports a hit, the
tentative position is NOT committed; the dynamics state undergoes
reverseVelocity(0.5) — so the forward velocity becomes -0.5 times the
pre-collision velocity — and the committed position is the pre-tick
position nudged away from the collision point by |velocity|·0.05 along the
normalized horizontal to-car direction (equal to the pre-tick position
only when that nudge vanishes). -/
theorem collision_commit_response (edt dirX dirZ : ℝ)
    (probes : List (Option (ℝ × Vec3))) (s : ControllerState)
    (h : (checkCollisions probes).hasCollision = true) :
    (commitStep edt dirX dirZ probes s).phys =
      CarPhysicsRev.reverseVelocity 0.5 s.phys ∧
    (commitStep edt dirX dirZ probes s).phys.velocity =
      -s.phys.velocity * 0.5 ∧
    (commitStep edt dirX dirZ probes s).position.x =
      s.position.x +
        (Vec3.normalize (Vec3.sub s.position
            (checkCollisions probes).collisionPoint)).x *
          (|(s.phys.velocity : ℝ)| * 0.05) ∧
    (commitStep edt dirX dirZ probes s).position.y = s.position.y ∧
    (commitStep edt dirX dirZ probes s).position.z =
      s.position.z +
        (Vec3.normalize (Vec3.sub s.position
            (checkCollisions probes).collisionPoint)).z *
          (|(s.phys.velocity : ℝ)| * 0.05) := by
  unfold commitStep
  dsimp only
  rw [if_neg (by rw [h]; exact fun hc => Bool.noConfusion hc)]
  exact ⟨rfl, rfl, rfl, rfl, rfl⟩

/-- Witness for C1: the concrete collision tick halves and reverses the
forward velocity. -/
theorem collision_commit_response_witness :
    (commitStep 1 0 1 probesHit ctrlHit).phys.velocity =
      -ctrlHit.phys.velocity * 0.5 :=
  (collision_commit_response 1 0 1 probesHit ctrlHit
    (by rw [checkCollisions_probesHit])).2.1

/-- C1 counterexample: a tick with a probe hit at distance 0.5 < 0.8 and
pre-collision velocity 10 commits a position that is NOT the pre-tick
position — the push-out nudge moves it by |velocity|·0.05 = 0.5 along the
direction away from the collision point. -/
theorem collision_commit_counterexample :
    (checkCollisions probesHit).hasCollision = true ∧
      (commitStep 1 0 1 probesHit ctrlHit).position ≠ ctrlHit.position := by
  constructor
  · rw [checkCollisions_probesHit]
  · have hx : (commitStep 1 0 1 probesHit ctrlHit).position.x = -(1/2) := by
      unfold commitStep
      dsimp only
      rw [checkCollisions_probesHit]
      rw [if_neg (fun hc => Bool.noConfusion hc)]
      dsimp only [ctrlHit]
      have hsub : Vec3.sub ⟨0, 0, 0⟩ ⟨1, 0, 0⟩ = ⟨-1, 0, 0⟩ := by
        unfold Vec3.sub
        norm_num
      rw [hsub, normalize_negX]
      push_cast
      norm_num
    intro hEq
    rw [hEq] at hx
    norm_num [ctrlHit] at hx

end Micromachines
